import Mathlib

/-!
Verification development for the genotype encoding and summary-statistics
engine of a pandas genomics extension.  The dataframe accessor
(`GenotypeDataframeAccessor`) is embedded from
`src/pandas_genomics/accessors/dataframe_accessor.py`; the per-array
genotype logic (classification, the four fixed encodings, the
single-variant weighted encoding, MAF and the HWE p-value) lives in a part
of the repository that is not under `src/` and is therefore modelled from
the specification, as flagged in each doc string.
-/

set_option maxHeartbeats 1000000

/-- Modelled from the spec: the Variant descriptor (spec section 3) of the
`pandas_genomics.scalars.Variant` class, which is not under `src/`:
chromosome, position, identifier (the matching key), reference allele,
ordered list of alternate alleles, and ploidy (default 2). -/
structure Variant where
  chromosome : String
  position : Nat
  id : String
  ref : String
  alt : List String
  ploidy : Nat := 2
  deriving DecidableEq

/-- Modelled from the spec: the list of allele symbols known to a Variant,
reference first, then the alternate alleles in order. -/
def Variant.knownAlleles (v : Variant) : List String :=
  v.ref :: v.alt

/-- Modelled from the spec: one diploid genotype call (spec section 3), a
pair of allele slots where `none` is an unknown slot, `some 0` the
reference allele and `some (i+1)` the alternate allele at index `i`.
Allele order within a call is not significant. -/
abbrev Call := Option Nat × Option Nat

/-- Modelled from the spec: the classification buckets of spec section 4.1
for a diploid genotype call. -/
inductive GTClass
  | homRef
  | het
  | homAlt
  | otherHet
  | missing
  deriving DecidableEq

/-- Modelled from the spec (section 4.1): classification of a diploid call.
A call with any unknown slot collapses to MISSING; a fully known call is
HOM_REF when both slots are the reference, HET when exactly one slot is the
reference, HOM_ALT when both slots are the same alternate allele, and the
remaining fully known combinations (two distinct alternate alleles) are the
distinct other-het bucket. -/
def classify : Call → GTClass
  | (some a, some b) =>
    if a = 0 then (if b = 0 then .homRef else .het)
    else if b = 0 then .het
    else if a = b then .homAlt
    else .otherHet
  | _ => .missing

/-- Modelled from the spec (section 4.3): additive encoding of one call;
HOM_REF 0, HET 1, HOM_ALT 2, other-het and MISSING have no value. -/
def encodeAdditiveCall (c : Call) : Option ℚ :=
  match classify c with
  | .homRef => some 0
  | .het => some 1
  | .homAlt => some 2
  | _ => none

/-- Modelled from the spec (section 4.3): dominant encoding of one call;
HOM_REF 0, HET 1, HOM_ALT 1, other-het and MISSING have no value. -/
def encodeDominantCall (c : Call) : Option ℚ :=
  match classify c with
  | .homRef => some 0
  | .het => some 1
  | .homAlt => some 1
  | _ => none

/-- Modelled from the spec (section 4.3): recessive encoding of one call;
HOM_REF 0, HET 0, HOM_ALT 1, other-het and MISSING have no value. -/
def encodeRecessiveCall (c : Call) : Option ℚ :=
  match classify c with
  | .homRef => some 0
  | .het => some 0
  | .homAlt => some 1
  | _ => none

/-- Modelled from the spec (section 4.3): the three categories of the
codominant encoding. -/
inductive Codominant
  | Ref
  | Het
  | Hom
  deriving DecidableEq

/-- Position of a codominant category in the ordered category set. -/
def Codominant.rank : Codominant → Nat
  | .Ref => 0
  | .Het => 1
  | .Hom => 2

instance : LT Codominant :=
  ⟨fun x y => x.rank < y.rank⟩

/-- Modelled from the spec (section 4.3): codominant encoding of one call;
HOM_REF Ref, HET Het, HOM_ALT Hom, other-het and MISSING have no category. -/
def encodeCodominantCall (c : Call) : Option Codominant :=
  match classify c with
  | .homRef => some .Ref
  | .het => some .Het
  | .homAlt => some .Hom
  | _ => none

/-- Modelled from the spec: `GenotypeArray.encode_additive`, one value per
call in sample order. -/
def GenotypeArray.encode_additive (calls : List Call) : List (Option ℚ) :=
  calls.map encodeAdditiveCall

/-- Modelled from the spec: `GenotypeArray.encode_dominant`, one value per
call in sample order. -/
def GenotypeArray.encode_dominant (calls : List Call) : List (Option ℚ) :=
  calls.map encodeDominantCall

/-- Modelled from the spec: `GenotypeArray.encode_recessive`, one value per
call in sample order. -/
def GenotypeArray.encode_recessive (calls : List Call) : List (Option ℚ) :=
  calls.map encodeRecessiveCall

/-- Modelled from the spec: `GenotypeArray.encode_codominant`, one category
per call in sample order. -/
def GenotypeArray.encode_codominant (calls : List Call) : List (Option Codominant) :=
  calls.map encodeCodominantCall

/-- The map 0 to Ref, 1 to Het, 2 to Hom used to compare the codominant
encoding with the additive one. -/
def codominantOfAdditive (q : ℚ) : Option Codominant :=
  if q = 0 then some .Ref
  else if q = 1 then some .Het
  else if q = 2 then some .Hom
  else none

/-- The five-call example sequence of the spec: homozygous reference,
heterozygous, homozygous alternate, one allele missing, fully missing. -/
def exampleCalls : List Call :=
  [(some 0, some 0), (some 0, some 1), (some 1, some 1), (some 0, none), (none, none)]

/-- C2: a diploid call with at least one unknown allele slot classifies as
MISSING and maps to no value under the additive, dominant, recessive and
codominant encodings; the example sequence [HomRef, Het, HomAlt,
one-allele-missing, fully-missing] encodes additively as [0,1,2,NaN,NaN],
dominantly as [0,1,1,NaN,NaN] and recessively as [0,0,1,NaN,NaN]. -/
theorem missing_slot_encodes_none (a b : Option Nat) (h : a = none ∨ b = none) :
    classify (a, b) = .missing ∧
    encodeAdditiveCall (a, b) = none ∧
    encodeDominantCall (a, b) = none ∧
    encodeRecessiveCall (a, b) = none ∧
    encodeCodominantCall (a, b) = none ∧
    GenotypeArray.encode_additive exampleCalls = [some 0, some 1, some 2, none, none] ∧
    GenotypeArray.encode_dominant exampleCalls = [some 0, some 1, some 1, none, none] ∧
    GenotypeArray.encode_recessive exampleCalls = [some 0, some 0, some 1, none, none] := by
  have hm : classify (a, b) = .missing := by
    rcases h with h | h <;> subst h
    · rfl
    · cases a <;> rfl
  refine ⟨hm, ?_, ?_, ?_, ?_, by decide, by decide, by decide⟩ <;>
    simp [encodeAdditiveCall, encodeDominantCall, encodeRecessiveCall,
      encodeCodominantCall, hm]

/-- Witness for C2 at a concrete half-missing call. -/
theorem missing_slot_encodes_none_w :
    classify ((some 0, none) : Call) = .missing ∧
    encodeAdditiveCall (some 0, none) = none ∧
    encodeDominantCall (some 0, none) = none ∧
    encodeRecessiveCall (some 0, none) = none ∧
    encodeCodominantCall (some 0, none) = none ∧
    GenotypeArray.encode_additive exampleCalls = [some 0, some 1, some 2, none, none] ∧
    GenotypeArray.encode_dominant exampleCalls = [some 0, some 1, some 1, none, none] ∧
    GenotypeArray.encode_recessive exampleCalls = [some 0, some 0, some 1, none, none] :=
  missing_slot_encodes_none (some 0) none (Or.inr rfl)

/-- C7: the codominant encoding is the image of the additive encoding under
the map 0 to Ref, 1 to Het, 2 to Hom, both per call and over a whole call
sequence; the two report no value on exactly the same positions; and the
codominant category set is ordered Ref < Het < Hom. -/
theorem encode_codominant_image_of_additive :
    (∀ c : Call,
      encodeCodominantCall c = (encodeAdditiveCall c).bind codominantOfAdditive ∧
      (encodeCodominantCall c = none ↔ encodeAdditiveCall c = none)) ∧
    (∀ calls : List Call,
      GenotypeArray.encode_codominant calls =
        (GenotypeArray.encode_additive calls).map (fun o => o.bind codominantOfAdditive)) ∧
    Codominant.Ref < Codominant.Het ∧ Codominant.Het < Codominant.Hom := by
  have hc : ∀ c : Call,
      encodeCodominantCall c = (encodeAdditiveCall c).bind codominantOfAdditive ∧
      (encodeCodominantCall c = none ↔ encodeAdditiveCall c = none) := by
    intro c
    unfold encodeCodominantCall encodeAdditiveCall
    cases classify c <;> simp [codominantOfAdditive]
  refine ⟨hc, ?_, Nat.zero_lt_one, Nat.lt_succ_self 1⟩
  intro calls
  unfold GenotypeArray.encode_codominant GenotypeArray.encode_additive
  rw [List.map_map]
  exact List.map_congr_left fun c _ => (hc c).1

/-- Modelled from the spec (section 4.4 and 4.5): value of one call under
the weighted (edge) encoding; with `mirror = false` HOM_REF is 0, HET is
alpha and HOM_ALT is 1, and with `mirror = true` (the swapped reference and
alternate orientation) the 0 and 1 endpoints are exchanged while alpha
keeps its magnitude; MISSING and other-het have no value. -/
def weightedCall (alpha : ℚ) (mirror : Bool) (c : Call) : Option ℚ :=
  match classify c with
  | .homRef => some (if mirror then 1 else 0)
  | .het => some alpha
  | .homAlt => some (if mirror then 0 else 1)
  | _ => none

/-- Modelled from the spec (section 4.4): `GenotypeArray.encode_weighted`,
the single-variant weighted encoding, which is not under `src/`.  When the
supplied reference and alternate symbols match the Variant's own reference
and an alternate allele the encoding is applied directly; when they are
swapped the 0 and 1 endpoints are mirrored; otherwise the operation fails
with an input error. -/
def GenotypeArray.encode_weighted (v : Variant) (calls : List Call) (alpha : ℚ)
    (refAllele altAllele : String) : Except String (List (Option ℚ)) :=
  if refAllele = v.ref ∧ altAllele ∈ v.alt then
    .ok (calls.map (weightedCall alpha false))
  else if altAllele = v.ref ∧ refAllele ∈ v.alt then
    .ok (calls.map (weightedCall alpha true))
  else
    .error ("Invalid reference and alternate alleles for variant " ++ v.id)

/-- C4: swapping the reference and alternate allele symbols between the two
valid orientations of the weighted encoding maps every HOM_REF or HOM_ALT
value q to 1 - q (HOM_REF goes to 1, HOM_ALT to 0), keeps the HET value at
alpha, and keeps MISSING at no value. -/
theorem encode_weighted_swap (v : Variant) (alpha : ℚ) (altAllele : String)
    (calls : List Call) (ha : altAllele ∈ v.alt) (hd : v.ref ∉ v.alt) :
    GenotypeArray.encode_weighted v calls alpha v.ref altAllele =
      .ok (calls.map (weightedCall alpha false)) ∧
    GenotypeArray.encode_weighted v calls alpha altAllele v.ref =
      .ok (calls.map (weightedCall alpha true)) ∧
    ∀ c : Call,
      (classify c = .homRef →
        weightedCall alpha false c = some 0 ∧ weightedCall alpha true c = some 1) ∧
      (classify c = .homAlt →
        weightedCall alpha false c = some 1 ∧ weightedCall alpha true c = some 0) ∧
      ((classify c = .homRef ∨ classify c = .homAlt) →
        ∃ q, weightedCall alpha false c = some q ∧
          weightedCall alpha true c = some (1 - q)) ∧
      (classify c = .het →
        weightedCall alpha false c = some alpha ∧ weightedCall alpha true c = some alpha) ∧
      (classify c = .missing →
        weightedCall alpha false c = none ∧ weightedCall alpha true c = none) := by
  have hne : ¬ altAllele = v.ref := fun h => hd (h ▸ ha)
  refine ⟨?_, ?_, ?_⟩
  · unfold GenotypeArray.encode_weighted
    rw [if_pos ⟨rfl, ha⟩]
  · unfold GenotypeArray.encode_weighted
    rw [if_neg (fun h => hne h.1), if_pos ⟨rfl, ha⟩]
  · intro c
    refine ⟨?_, ?_, ?_, ?_, ?_⟩ <;> intro hcl
    · simp [weightedCall, hcl]
    · simp [weightedCall, hcl]
    · rcases hcl with hcl | hcl
      · exact ⟨0, by simp [weightedCall, hcl]⟩
      · exact ⟨1, by simp [weightedCall, hcl]⟩
    · simp [weightedCall, hcl]
    · simp [weightedCall, hcl]

/-- Witness for C4 at a concrete biallelic variant and call sequence. -/
theorem encode_weighted_swap_w :
    GenotypeArray.encode_weighted ⟨"chr1", 1, "rs1", "A", ["T"], 2⟩ exampleCalls (1/4) "A" "T" =
      .ok (exampleCalls.map (weightedCall (1/4) false)) ∧
    GenotypeArray.encode_weighted ⟨"chr1", 1, "rs1", "A", ["T"], 2⟩ exampleCalls (1/4) "T" "A" =
      .ok (exampleCalls.map (weightedCall (1/4) true)) ∧
    ∀ c : Call,
      (classify c = .homRef →
        weightedCall (1/4) false c = some 0 ∧ weightedCall (1/4) true c = some 1) ∧
      (classify c = .homAlt →
        weightedCall (1/4) false c = some 1 ∧ weightedCall (1/4) true c = some 0) ∧
      ((classify c = .homRef ∨ classify c = .homAlt) →
        ∃ q, weightedCall (1/4) false c = some q ∧
          weightedCall (1/4) true c = some (1 - q)) ∧
      (classify c = .het →
        weightedCall (1/4) false c = some (1/4) ∧ weightedCall (1/4) true c = some (1/4)) ∧
      (classify c = .missing →
        weightedCall (1/4) false c = none ∧ weightedCall (1/4) true c = none) :=
  encode_weighted_swap ⟨"chr1", 1, "rs1", "A", ["T"], 2⟩ (1/4) "T" exampleCalls
    (by decide) (by decide)

/-- C6: when the supplied reference and alternate symbols do not both
appear among the Variant's known alleles, the single-variant weighted
encoding fails with an input error and produces no values. -/
theorem encode_weighted_bad_alleles (v : Variant) (calls : List Call) (alpha : ℚ)
    (refAllele altAllele : String)
    (h : refAllele ∉ v.knownAlleles ∨ altAllele ∉ v.knownAlleles) :
    ∃ msg, GenotypeArray.encode_weighted v calls alpha refAllele altAllele =
      .error msg := by
  have h1 : ¬(refAllele = v.ref ∧ altAllele ∈ v.alt) := by
    rintro ⟨hr, haA⟩
    rcases h with h | h
    · exact h (by simp [Variant.knownAlleles, hr])
    · exact h (by simp [Variant.knownAlleles, haA])
  have h2 : ¬(altAllele = v.ref ∧ refAllele ∈ v.alt) := by
    rintro ⟨hr, haA⟩
    rcases h with h | h
    · exact h (by simp [Variant.knownAlleles, haA])
    · exact h (by simp [Variant.knownAlleles, hr])
  refine ⟨"Invalid reference and alternate alleles for variant " ++ v.id, ?_⟩
  unfold GenotypeArray.encode_weighted
  rw [if_neg h1, if_neg h2]

/-- Witness for C6 at a concrete variant and symbols absent from it. -/
theorem encode_weighted_bad_alleles_w :
    ∃ msg, GenotypeArray.encode_weighted ⟨"chr1", 1, "rs1", "A", ["T"], 2⟩
      exampleCalls (1/4) "A" "G" = .error msg :=
  encode_weighted_bad_alleles ⟨"chr1", 1, "rs1", "A", ["T"], 2⟩ exampleCalls (1/4)
    "A" "G" (Or.inr (by decide))

/-- Modelled from the spec: whether every allele slot of a call is known. -/
def fullyKnown : Call → Bool
  | (some _, some _) => true
  | _ => false

/-- Modelled from the spec (section 4.2): alternate-allele occurrences
among the slots of one fully known call; partially or fully missing calls
contribute zero known slots. -/
def altSlotCount : Call → Nat
  | (some a, some b) => (if a ≠ 0 then 1 else 0) + (if b ≠ 0 then 1 else 0)
  | _ => 0

/-- Modelled from the spec (section 4.2): `GenotypeArray.maf`, the
alternate-allele frequency over all fully known allele slots, with no value
when zero known slots exist. -/
def GenotypeArray.maf (calls : List Call) : Option ℚ :=
  let known := calls.filter fullyKnown
  if known.length = 0 then none
  else some (((known.map altSlotCount).sum : ℚ) / (2 * known.length))

/-- Number of calls of a sequence that fall in a given classification
bucket. -/
def countClass (calls : List Call) (g : GTClass) : Nat :=
  (calls.filter (fun c => decide (classify c = g))).length

/-- Modelled from the spec (section 4.2): the chi-squared goodness-of-fit
statistic comparing observed HOM_REF, HET and HOM_ALT counts with the
counts expected under Hardy-Weinberg proportions at the observed allele
frequency. -/
noncomputable def hweStat (nRR nHet nAA : Nat) : ℝ :=
  let n : ℝ := (nRR : ℝ) + (nHet : ℝ) + (nAA : ℝ)
  let p : ℝ := (2 * (nRR : ℝ) + (nHet : ℝ)) / (2 * n)
  let eRR : ℝ := p ^ 2 * n
  let eHet : ℝ := 2 * p * (1 - p) * n
  let eAA : ℝ := (1 - p) ^ 2 * n
  ((nRR : ℝ) - eRR) ^ 2 / eRR + ((nHet : ℝ) - eHet) ^ 2 / eHet +
    ((nAA : ℝ) - eAA) ^ 2 / eAA

/-- Modelled from the spec: the upper-tail probability of the chi-squared
distribution with one degree of freedom (the Gamma distribution with shape
1/2 and rate 1/2), the p-value of the HWE goodness-of-fit test. -/
noncomputable def chiSqTailOne (x : ℝ) : ℝ :=
  1 - ProbabilityTheory.gammaCDFReal (1/2) (1/2) x

/-- Modelled from the spec: `GenotypeArray.hwe_pval`, with the minimum
sample threshold as an explicit parameter because the spec names a minimum
threshold of fully known calls without fixing its value.  The result is no
value for ploidy other than 2 or for fewer fully known calls than the
threshold, and otherwise the chi-squared(1) upper-tail probability of the
goodness-of-fit statistic; no value is an ordinary result, not an error. -/
noncomputable def GenotypeArray.hwe_pval (minSamples : Nat) (v : Variant)
    (calls : List Call) : Option ℝ :=
  if v.ploidy ≠ 2 then none
  else if (calls.filter fullyKnown).length < minSamples then none
  else some (chiSqTailOne (hweStat (countClass calls .homRef)
    (countClass calls .het) (countClass calls .homAlt)))

lemma chiSqTailOne_mem_unit (x : ℝ) : 0 ≤ chiSqTailOne x ∧ chiSqTailOne x ≤ 1 := by
  have h1 := ProbabilityTheory.cdf_nonneg (ProbabilityTheory.gammaMeasure (1/2) (1/2)) x
  have h2 := ProbabilityTheory.cdf_le_one (ProbabilityTheory.gammaMeasure (1/2) (1/2)) x
  unfold chiSqTailOne ProbabilityTheory.gammaCDFReal
  constructor <;> linarith

/-- C8: the HWE p-value is no value whenever the variant's ploidy is not 2
or the number of fully known calls is below the minimum threshold, and
otherwise it is a value in the interval [0,1]; both outcomes are ordinary
results of the total function, not errors. -/
theorem hwe_pval_nan_or_unit_interval (minSamples : Nat) (v : Variant)
    (calls : List Call) :
    (v.ploidy ≠ 2 ∨ (calls.filter fullyKnown).length < minSamples →
      GenotypeArray.hwe_pval minSamples v calls = none) ∧
    (v.ploidy = 2 → minSamples ≤ (calls.filter fullyKnown).length →
      ∃ p, GenotypeArray.hwe_pval minSamples v calls = some p ∧ 0 ≤ p ∧ p ≤ 1) := by
  constructor
  · intro h
    unfold GenotypeArray.hwe_pval
    rcases h with h | h
    · rw [if_pos h]
    · by_cases hp : v.ploidy ≠ 2
      · rw [if_pos hp]
      · rw [if_neg hp, if_pos h]
  · intro hp hn
    unfold GenotypeArray.hwe_pval
    rw [if_neg (by simp [hp]), if_neg (Nat.not_lt.mpr hn)]
    exact ⟨_, rfl, (chiSqTailOne_mem_unit _).1, (chiSqTailOne_mem_unit _).2⟩

/-- Witness for C8: a ploidy-3 variant yields no value, and a diploid
variant above the threshold yields a p-value in [0,1]. -/
theorem hwe_pval_nan_or_unit_interval_w :
    GenotypeArray.hwe_pval 2 ⟨"chr1", 1, "rs1", "A", ["T"], 3⟩ exampleCalls = none ∧
    ∃ p, GenotypeArray.hwe_pval 0 ⟨"chr1", 1, "rs1", "A", ["T"], 2⟩ exampleCalls = some p ∧
      0 ≤ p ∧ p ≤ 1 :=
  ⟨(hwe_pval_nan_or_unit_interval 2 ⟨"chr1", 1, "rs1", "A", ["T"], 3⟩ exampleCalls).1
      (Or.inl (by decide)),
   (hwe_pval_nan_or_unit_interval 0 ⟨"chr1", 1, "rs1", "A", ["T"], 2⟩ exampleCalls).2
      rfl (Nat.zero_le _)⟩

/-- Exceptions raised by the embedded accessor code: the ValueError and
AttributeError cases of the source. -/
inductive PyError
  | valueError (msg : String)
  | attributeError (msg : String)
  deriving DecidableEq

/-- A pandas DataFrame column as the accessor constructor sees it: either a
genotype column (a GenotypeArray together with its Variant) or a column of
some other dtype, recorded by its dtype name. -/
inductive PyCol
  | geno (v : Variant) (calls : List Call)
  | other (dtypeName : String)
  deriving DecidableEq

/-- Whether a column dtype is a GenotypeDtype (GenotypeDtype.is_dtype in
the source). -/
def PyCol.isGenotypeDtype : PyCol → Bool
  | .geno _ _ => true
  | .other _ => false

/-- A pandas DataFrame as a list of named columns in order. -/
abbrev DataFrame := List (String × PyCol)

/-- The validated all-genotype frame held by a constructed accessor. -/
abbrev GenoDF := List (String × Variant × List Call)

/-- Names of the columns of a DataFrame whose dtype is not a GenotypeDtype
(source lines 16 to 19 of the dataframe accessor). -/
def incompatibleColumns (df : DataFrame) : List String :=
  (df.filter (fun c => !c.2.isGenotypeDtype)).map (·.1)

/-- Error message of the accessor constructor (source lines 20 to 22); the
source interpolates the Series of offending dtypes, modelled here by the
offending column names. -/
def incompatibleMsg (df : DataFrame) : String :=
  "Incompatible datatypes: all columns must be a GenotypeDtype: " ++
    String.intercalate ", " (incompatibleColumns df)

/-- Projection of a genotype column to its Variant and calls. -/
def toGenoCol : PyCol → Option (Variant × List Call)
  | .geno v calls => some (v, calls)
  | .other _ => none

/-- Embedding of GenotypeDataframeAccessor.__init__ (source lines 15 to
23): constructing the genomics accessor yields the validated frame when
every column dtype is a GenotypeDtype and otherwise raises an
AttributeError naming the incompatible columns. -/
def genomicsAccessor (df : DataFrame) : Except PyError GenoDF :=
  if df.all (fun c => c.2.isGenotypeDtype) then
    .ok (df.filterMap (fun c => (toGenoCol c.2).map (fun g => (c.1, g))))
  else
    .error (.attributeError (incompatibleMsg df))

/-- The encoding-parameter table passed to the batch weighted encoding: its
column names in order and the contents of its Variant ID column, the only
parts that the executed statements of the method read. -/
structure EncodingInfo where
  columns : List String
  ids : List String
  deriving DecidableEq

/-- Required columns of the parameter table (source line 132). -/
def requiredColumns : List String :=
  ["Variant ID", "Alpha Value", "Ref Allele", "Alt Allele", "Minor Allele Frequency"]

/-- Validation prefix of encode_weighted (source lines 131 to 137): the
loop raises a ValueError at the first required column missing from the
table, and then a ValueError when any Variant ID occurs more than once. -/
def validateEncodingInfo (info : EncodingInfo) : Except PyError Unit :=
  match requiredColumns.find? (fun c => !(decide (c ∈ info.columns))) with
  | some c => .error (.valueError
      ("Missing one or more required columns in the encoding info: " ++ c))
  | none =>
    let dupIds := info.ids.dedup.filter (fun i => decide (1 < info.ids.count i))
    if dupIds.isEmpty then .ok ()
    else .error (.valueError ("Duplicate IDs: " ++ String.intercalate ", " dupIds))

/-- A Python value bound to the name encoding_info inside encode_weighted:
initially the parameter DataFrame, and after set_index followed by to_dict
a plain Python list with one record per row, because the pandas releases
this repository runs on resolve the orient string given at source line 141
to records. -/
inductive PyObj
  | pyFrame (info : EncodingInfo)
  | pyList (length : Nat)
  deriving DecidableEq

/-- Source line 141: set_index on Variant ID followed by to_dict rebinds
encoding_info to a plain list of row records. -/
def toDictRecords (info : EncodingInfo) : PyObj :=
  .pyList info.ids.length

/-- Attribute lookup of iterrows on the rebound value (source line 145):
only a DataFrame has the attribute, so on the list the lookup raises an
AttributeError before any iteration happens. -/
def iterrowsAttr : PyObj → Except PyError Nat
  | .pyFrame info => .ok info.ids.length
  | .pyList _ => .error (.attributeError "list object has no attribute iterrows")

/-- Embedding of GenotypeDataframeAccessor.encode_weighted (source lines
111 to 151): validate the parameter table, rebind encoding_info to the
to_dict result, then iterate it with iterrows.  The iterrows attribute
lookup on the list raises, so the loop body of source lines 145 to 147 and
the final statement, which would return codominant encodings of every
column instead of weighted ones (source lines 149 to 151), are never
reached. -/
def GenotypeDataframeAccessor.encode_weighted (gdf : GenoDF) (info : EncodingInfo) :
    Except PyError (List (String × List (Option Codominant))) :=
  match validateEncodingInfo info with
  | .error e => .error e
  | .ok _ =>
    match iterrowsAttr (toDictRecords info) with
    | .error e => .error e
    | .ok _ => .ok (gdf.map (fun c => (c.1, GenotypeArray.encode_codominant c.2.2)))

/-- Embedding of the maf property (source lines 42 to 47): the per-column
MAF indexed by column name. -/
def GenotypeDataframeAccessor.maf (g : GenoDF) : List (String × Option ℚ) :=
  g.map (fun c => (c.1, GenotypeArray.maf c.2.2))

/-- Embedding of the hwe_pval property (source lines 49 to 54): the
per-column HWE p-value indexed by column name. -/
noncomputable def GenotypeDataframeAccessor.hwe_pval (minSamples : Nat) (g : GenoDF) :
    List (String × Option ℝ) :=
  g.map (fun c => (c.1, GenotypeArray.hwe_pval minSamples c.2.1 c.2.2))

/-- Embedding of the dataframe-level encode_additive (source lines 59 to
70). -/
def GenotypeDataframeAccessor.encode_additive (g : GenoDF) :
    List (String × List (Option ℚ)) :=
  g.map (fun c => (c.1, GenotypeArray.encode_additive c.2.2))

/-- Embedding of the dataframe-level encode_dominant (source lines 72 to
83). -/
def GenotypeDataframeAccessor.encode_dominant (g : GenoDF) :
    List (String × List (Option ℚ)) :=
  g.map (fun c => (c.1, GenotypeArray.encode_dominant c.2.2))

/-- Embedding of the dataframe-level encode_recessive (source lines 85 to
96). -/
def GenotypeDataframeAccessor.encode_recessive (g : GenoDF) :
    List (String × List (Option ℚ)) :=
  g.map (fun c => (c.1, GenotypeArray.encode_recessive c.2.2))

/-- Embedding of the dataframe-level encode_codominant (source lines 98 to
109). -/
def GenotypeDataframeAccessor.encode_codominant (g : GenoDF) :
    List (String × List (Option Codominant)) :=
  g.map (fun c => (c.1, GenotypeArray.encode_codominant c.2.2))

/-- Embedding of filter_variants_maf (source lines 156 to 160): keep the
columns whose MAF compares greater than or equal to the threshold; a NaN
MAF compares false in pandas, so such a column is dropped. -/
def GenotypeDataframeAccessor.filter_variants_maf (keepMinFreq : ℚ) (g : GenoDF) :
    GenoDF :=
  g.filter (fun c => match GenotypeArray.maf c.2.2 with
    | none => false
    | some q => decide (keepMinFreq ≤ q))

/-- Embedding of filter_variants_hwe (source lines 162 to 171): keep the
columns whose HWE p-value compares greater than or equal to the cutoff or
is NaN. -/
noncomputable def GenotypeDataframeAccessor.filter_variants_hwe (minSamples : Nat)
    (cutoff : ℝ) (g : GenoDF) : GenoDF :=
  g.filter (fun c => match GenotypeArray.hwe_pval minSamples c.2.1 c.2.2 with
    | none => true
    | some p => @decide (cutoff ≤ p) (Classical.propDecidable _))

/-- Composition df.genomics.maf: accessor construction then the maf
property. -/
def df_genomics_maf (df : DataFrame) : Except PyError (List (String × Option ℚ)) :=
  (genomicsAccessor df).map GenotypeDataframeAccessor.maf

/-- Composition df.genomics.hwe_pval: accessor construction then the
hwe_pval property. -/
noncomputable def df_genomics_hwe_pval (minSamples : Nat) (df : DataFrame) :
    Except PyError (List (String × Option ℝ)) :=
  (genomicsAccessor df).map (GenotypeDataframeAccessor.hwe_pval minSamples)

/-- Composition df.genomics.encode_additive. -/
def df_genomics_encode_additive (df : DataFrame) :
    Except PyError (List (String × List (Option ℚ))) :=
  (genomicsAccessor df).map GenotypeDataframeAccessor.encode_additive

/-- Composition df.genomics.encode_dominant. -/
def df_genomics_encode_dominant (df : DataFrame) :
    Except PyError (List (String × List (Option ℚ))) :=
  (genomicsAccessor df).map GenotypeDataframeAccessor.encode_dominant

/-- Composition df.genomics.encode_recessive. -/
def df_genomics_encode_recessive (df : DataFrame) :
    Except PyError (List (String × List (Option ℚ))) :=
  (genomicsAccessor df).map GenotypeDataframeAccessor.encode_recessive

/-- Composition df.genomics.encode_codominant. -/
def df_genomics_encode_codominant (df : DataFrame) :
    Except PyError (List (String × List (Option Codominant))) :=
  (genomicsAccessor df).map GenotypeDataframeAccessor.encode_codominant

/-- Composition df.genomics.encode_weighted. -/
def df_genomics_encode_weighted (df : DataFrame) (info : EncodingInfo) :
    Except PyError (List (String × List (Option Codominant))) :=
  (genomicsAccessor df).bind (fun g => GenotypeDataframeAccessor.encode_weighted g info)

/-- Composition df.genomics.filter_variants_maf. -/
def df_genomics_filter_variants_maf (keepMinFreq : ℚ) (df : DataFrame) :
    Except PyError GenoDF :=
  (genomicsAccessor df).map (GenotypeDataframeAccessor.filter_variants_maf keepMinFreq)

/-- Composition df.genomics.filter_variants_hwe. -/
noncomputable def df_genomics_filter_variants_hwe (minSamples : Nat) (cutoff : ℝ)
    (df : DataFrame) : Except PyError GenoDF :=
  (genomicsAccessor df).map
    (GenotypeDataframeAccessor.filter_variants_hwe minSamples cutoff)

lemma validateEncodingInfo_duplicate (info : EncodingInfo)
    (h : ∃ i ∈ info.ids, 1 < info.ids.count i) :
    ∃ msg, validateEncodingInfo info = .error (.valueError msg) := by
  unfold validateEncodingInfo
  cases hf : requiredColumns.find? (fun c => !(decide (c ∈ info.columns))) with
  | some c =>
    exact ⟨"Missing one or more required columns in the encoding info: " ++ c, rfl⟩
  | none =>
    obtain ⟨i, hi, hc⟩ := h
    have hmem : i ∈ info.ids.dedup.filter (fun j => decide (1 < info.ids.count j)) := by
      rw [List.mem_filter]
      exact ⟨List.mem_dedup.mpr hi, by simpa using hc⟩
    have hne : ¬(info.ids.dedup.filter
        (fun j => decide (1 < info.ids.count j))).isEmpty = true := by
      intro hempty
      rw [List.isEmpty_iff] at hempty
      rw [hempty] at hmem
      exact List.not_mem_nil i hmem
    rw [if_neg hne]
    exact ⟨_, rfl⟩

/-- C3: a parameter table in which some Variant ID occurs more than once
makes the batch weighted encoding raise a fatal ValueError; the ValueError
constructor shows the error comes from the validation prefix, before the
per-column matching or encoding part of the method is reached, and the
result does not depend on the genotype columns. -/
theorem encode_weighted_duplicate_ids_fatal (gdf : GenoDF) (info : EncodingInfo)
    (h : ∃ i ∈ info.ids, 1 < info.ids.count i) :
    ∃ msg, GenotypeDataframeAccessor.encode_weighted gdf info =
      .error (.valueError msg) := by
  obtain ⟨msg, hv⟩ := validateEncodingInfo_duplicate info h
  refine ⟨msg, ?_⟩
  unfold GenotypeDataframeAccessor.encode_weighted
  rw [hv]

/-- Witness for C3 at a concrete table with a duplicated Variant ID. -/
theorem encode_weighted_duplicate_ids_fatal_w :
    ∃ msg, GenotypeDataframeAccessor.encode_weighted []
      ⟨requiredColumns, ["rs1", "rs1"]⟩ = .error (.valueError msg) :=
  encode_weighted_duplicate_ids_fatal [] ⟨requiredColumns, ["rs1", "rs1"]⟩
    ⟨"rs1", by decide, by decide⟩

/-- C5: a parameter table missing at least one of the five required columns
makes the batch weighted encoding raise a fatal ValueError immediately, and
the behaviour is unchanged under any reordering of the table's columns. -/
theorem encode_weighted_missing_column_fatal (gdf : GenoDF) (info : EncodingInfo)
    (h : ∃ rc ∈ requiredColumns, rc ∉ info.columns) :
    (∃ msg, GenotypeDataframeAccessor.encode_weighted gdf info =
      .error (.valueError msg)) ∧
    ∀ cols₂, info.columns.Perm cols₂ →
      GenotypeDataframeAccessor.encode_weighted gdf ⟨cols₂, info.ids⟩ =
        GenotypeDataframeAccessor.encode_weighted gdf info := by
  have hsome : (requiredColumns.find?
      (fun c => !(decide (c ∈ info.columns)))).isSome := by
    rw [List.find?_isSome]
    obtain ⟨rc, hrc, hnc⟩ := h
    exact ⟨rc, hrc, by simpa using hnc⟩
  obtain ⟨c, hc⟩ := Option.isSome_iff_exists.mp hsome
  constructor
  · refine ⟨"Missing one or more required columns in the encoding info: " ++ c, ?_⟩
    unfold GenotypeDataframeAccessor.encode_weighted validateEncodingInfo
    rw [hc]
  · intro cols₂ hperm
    have hcont : ∀ x, decide (x ∈ cols₂) = decide (x ∈ info.columns) := fun x =>
      decide_eq_decide.mpr hperm.mem_iff.symm
    have hv : validateEncodingInfo ⟨cols₂, info.ids⟩ = validateEncodingInfo info := by
      unfold validateEncodingInfo
      simp only [hcont]
    unfold GenotypeDataframeAccessor.encode_weighted
    rw [hv]
    have ht : toDictRecords ⟨cols₂, info.ids⟩ = toDictRecords info := rfl
    rw [ht]

/-- Witness for C5 at a concrete table lacking four required columns. -/
theorem encode_weighted_missing_column_fatal_w :
    (∃ msg, GenotypeDataframeAccessor.encode_weighted []
      ⟨["Variant ID"], ["rs1"]⟩ = .error (.valueError msg)) ∧
    ∀ cols₂, List.Perm ["Variant ID"] cols₂ →
      GenotypeDataframeAccessor.encode_weighted [] ⟨cols₂, ["rs1"]⟩ =
        GenotypeDataframeAccessor.encode_weighted [] ⟨["Variant ID"], ["rs1"]⟩ :=
  encode_weighted_missing_column_fatal [] ⟨["Variant ID"], ["rs1"]⟩
    ⟨"Alpha Value", by decide, by decide⟩

/-- Shorthand for the biallelic diploid test Variants of the encoding_df
fixture of test_encoding_weighted_df. -/
def testVariant (pos : Nat) (idStr refA altA : String) : Variant :=
  ⟨"chr1", pos, idStr, refA, [altA], 2⟩

/-- The input DataFrame of the first test_encoding_weighted_df case: five
genotype columns var0 to var4, each holding the five-call example sequence,
plus a non-genotype Float64 column named num. -/
def testDf : DataFrame :=
  [("var0", .geno (testVariant 1 "rs1" "A" "a") exampleCalls),
   ("var1", .geno (testVariant 2 "rs2" "B" "b") exampleCalls),
   ("var2", .geno (testVariant 3 "rs3" "C" "c") exampleCalls),
   ("var3", .geno (testVariant 4 "rs4" "D" "d") exampleCalls),
   ("var4", .geno (testVariant 5 "rs5" "E" "e") exampleCalls),
   ("num", .other "Float64")]

/-- The same five genotype columns as a validated all-genotype frame. -/
def testGenoDf : GenoDF :=
  [("var0", testVariant 1 "rs1" "A" "a", exampleCalls),
   ("var1", testVariant 2 "rs2" "B" "b", exampleCalls),
   ("var2", testVariant 3 "rs3" "C" "c", exampleCalls),
   ("var3", testVariant 4 "rs4" "D" "d", exampleCalls),
   ("var4", testVariant 5 "rs5" "E" "e", exampleCalls)]

/-- The parameter table of the first test_encoding_weighted_df case: all
five required columns and the matching identifiers rs1 to rs5. -/
def testInfo : EncodingInfo :=
  ⟨requiredColumns, ["rs1", "rs2", "rs3", "rs4", "rs5"]⟩

/-- C1 (evidence of the code bug): at the standard input of
test_encoding_weighted_df the batch weighted encoding never returns the
documented dataframe of weighted columns with non-genotype pass-through:
the accessor constructor rejects the non-genotype num column with an
AttributeError, and even on the all-genotype frame with a fully matching
parameter table the method raises an AttributeError at the iterrows call on
the list produced by to_dict, so no per-variant weighted column and no
pass-through is ever produced. -/
theorem encode_weighted_df_always_raises :
    df_genomics_encode_weighted testDf testInfo =
      .error (.attributeError (incompatibleMsg testDf)) ∧
    incompatibleColumns testDf = ["num"] ∧
    GenotypeDataframeAccessor.encode_weighted testGenoDf testInfo =
      .error (.attributeError "list object has no attribute iterrows") :=
  ⟨rfl, rfl, rfl⟩

/-- C10: a DataFrame with at least one non-genotype column makes the
accessor constructor raise an AttributeError whose message names the
incompatible columns, and every dataframe-level operation routed through
the accessor (maf, hwe_pval, the four fixed encoders, the weighted encoder
and both filters) returns that same error instead of a result. -/
theorem accessor_rejects_non_genotype (df : DataFrame) (info : EncodingInfo)
    (minSamples : Nat) (cutoff : ℝ) (keepMinFreq : ℚ)
    (h : ∃ c ∈ df, c.2.isGenotypeDtype = false) :
    genomicsAccessor df = .error (.attributeError (incompatibleMsg df)) ∧
    (∀ name col, (name, col) ∈ df → col.isGenotypeDtype = false →
      name ∈ incompatibleColumns df) ∧
    df_genomics_maf df = .error (.attributeError (incompatibleMsg df)) ∧
    df_genomics_hwe_pval minSamples df = .error (.attributeError (incompatibleMsg df)) ∧
    df_genomics_encode_additive df = .error (.attributeError (incompatibleMsg df)) ∧
    df_genomics_encode_dominant df = .error (.attributeError (incompatibleMsg df)) ∧
    df_genomics_encode_recessive df = .error (.attributeError (incompatibleMsg df)) ∧
    df_genomics_encode_codominant df = .error (.attributeError (incompatibleMsg df)) ∧
    df_genomics_encode_weighted df info = .error (.attributeError (incompatibleMsg df)) ∧
    df_genomics_filter_variants_maf keepMinFreq df =
      .error (.attributeError (incompatibleMsg df)) ∧
    df_genomics_filter_variants_hwe minSamples cutoff df =
      .error (.attributeError (incompatibleMsg df)) := by
  have hacc : genomicsAccessor df = .error (.attributeError (incompatibleMsg df)) := by
    unfold genomicsAccessor
    rw [if_neg]
    intro hall
    rw [List.all_eq_true] at hall
    obtain ⟨c, hcm, hcf⟩ := h
    have := hall c hcm
    rw [hcf] at this
    exact Bool.false_ne_true this
  refine ⟨hacc, ?_, ?_, ?_, ?_, ?_, ?_, ?_, ?_, ?_, ?_⟩
  · intro name col hmem hfalse
    unfold incompatibleColumns
    rw [List.mem_map]
    exact ⟨(name, col), List.mem_filter.mpr ⟨hmem, by simp [hfalse]⟩, rfl⟩
  all_goals
    first
    | (unfold df_genomics_maf; rw [hacc]; rfl)
    | (unfold df_genomics_hwe_pval; rw [hacc]; rfl)
    | (unfold df_genomics_encode_additive; rw [hacc]; rfl)
    | (unfold df_genomics_encode_dominant; rw [hacc]; rfl)
    | (unfold df_genomics_encode_recessive; rw [hacc]; rfl)
    | (unfold df_genomics_encode_codominant; rw [hacc]; rfl)
    | (unfold df_genomics_encode_weighted; rw [hacc]; rfl)
    | (unfold df_genomics_filter_variants_maf; rw [hacc]; rfl)
    | (unfold df_genomics_filter_variants_hwe; rw [hacc]; rfl)

/-- Witness for C10 at the concrete testDf, whose num column is Float64. -/
theorem accessor_rejects_non_genotype_w :
    genomicsAccessor testDf = .error (.attributeError (incompatibleMsg testDf)) ∧
    (∀ name col, (name, col) ∈ testDf → col.isGenotypeDtype = false →
      name ∈ incompatibleColumns testDf) ∧
    df_genomics_maf testDf = .error (.attributeError (incompatibleMsg testDf)) ∧
    df_genomics_hwe_pval 2 testDf = .error (.attributeError (incompatibleMsg testDf)) ∧
    df_genomics_encode_additive testDf =
      .error (.attributeError (incompatibleMsg testDf)) ∧
    df_genomics_encode_dominant testDf =
      .error (.attributeError (incompatibleMsg testDf)) ∧
    df_genomics_encode_recessive testDf =
      .error (.attributeError (incompatibleMsg testDf)) ∧
    df_genomics_encode_codominant testDf =
      .error (.attributeError (incompatibleMsg testDf)) ∧
    df_genomics_encode_weighted testDf testInfo =
      .error (.attributeError (incompatibleMsg testDf)) ∧
    df_genomics_filter_variants_maf (1/100) testDf =
      .error (.attributeError (incompatibleMsg testDf)) ∧
    df_genomics_filter_variants_hwe 2 (1/20) testDf =
      .error (.attributeError (incompatibleMsg testDf)) :=
  accessor_rejects_non_genotype testDf testInfo 2 (1/20) (1/100)
    ⟨("num", .other "Float64"), by decide, rfl⟩

/-- C9: the two variant filters treat NaN statistics asymmetrically: a
column of a genotype dataframe survives filter_variants_hwe exactly when
its HWE p-value is NaN or at least the cutoff (so every NaN column is kept
and exactly the columns with p-value strictly below the cutoff are
dropped), while a column survives filter_variants_maf exactly when its MAF
is a value at least the threshold (so every NaN-MAF column is dropped). -/
theorem filter_variants_nan_asymmetry (minSamples : Nat) (cutoff : ℝ)
    (keepMinFreq : ℚ) (g : GenoDF) (col : String × Variant × List Call)
    (h : col ∈ g) :
    (col ∈ GenotypeDataframeAccessor.filter_variants_hwe minSamples cutoff g ↔
      GenotypeArray.hwe_pval minSamples col.2.1 col.2.2 = none ∨
        ∃ p, GenotypeArray.hwe_pval minSamples col.2.1 col.2.2 = some p ∧ cutoff ≤ p) ∧
    (col ∈ GenotypeDataframeAccessor.filter_variants_maf keepMinFreq g ↔
      ∃ q, GenotypeArray.maf col.2.2 = some q ∧ keepMinFreq ≤ q) := by
  constructor
  · unfold GenotypeDataframeAccessor.filter_variants_hwe
    rw [List.mem_filter]
    cases hw : GenotypeArray.hwe_pval minSamples col.2.1 col.2.2 with
    | none => simp [h, hw]
    | some p =>
      simp only [h, hw, true_and]
      constructor
      · intro hb
        exact Or.inr ⟨p, rfl, of_decide_eq_true hb⟩
      · rintro (hcontra | ⟨p₂, hp₂, hle⟩)
        · exact absurd hcontra (by simp)
        · cases Option.some.inj hp₂
          exact decide_eq_true hle
  · unfold GenotypeDataframeAccessor.filter_variants_maf
    rw [List.mem_filter]
    cases hm : GenotypeArray.maf col.2.2 with
    | none => simp [h, hm]
    | some q =>
      simp only [h, hm, true_and]
      constructor
      · intro hb
        exact ⟨q, rfl, of_decide_eq_true hb⟩
      · rintro ⟨q₂, hq₂, hle⟩
        cases Option.some.inj hq₂
        exact decide_eq_true hle

/-- Witness for C9 at a one-column frame whose variant is ploidy 3 with all
calls missing, so both its HWE p-value and its MAF are NaN. -/
theorem filter_variants_nan_asymmetry_w :
    (("v", (⟨"chr1", 1, "rs1", "A", ["a"], 3⟩ : Variant), [((none, none) : Call)]) ∈
      GenotypeDataframeAccessor.filter_variants_hwe 2 (1/20)
        [("v", ⟨"chr1", 1, "rs1", "A", ["a"], 3⟩, [((none, none) : Call)])] ↔
      GenotypeArray.hwe_pval 2 ⟨"chr1", 1, "rs1", "A", ["a"], 3⟩
        [((none, none) : Call)] = none ∨
        ∃ p, GenotypeArray.hwe_pval 2 ⟨"chr1", 1, "rs1", "A", ["a"], 3⟩
          [((none, none) : Call)] = some p ∧ (1/20 : ℝ) ≤ p) ∧
    (("v", (⟨"chr1", 1, "rs1", "A", ["a"], 3⟩ : Variant), [((none, none) : Call)]) ∈
      GenotypeDataframeAccessor.filter_variants_maf (1/100)
        [("v", ⟨"chr1", 1, "rs1", "A", ["a"], 3⟩, [((none, none) : Call)])] ↔
      ∃ q, GenotypeArray.maf [((none, none) : Call)] = some q ∧ (1/100 : ℚ) ≤ q) :=
  filter_variants_nan_asymmetry 2 (1/20) (1/100)
    [("v", ⟨"chr1", 1, "rs1", "A", ["a"], 3⟩, [((none, none) : Call)])]
    ("v", ⟨"chr1", 1, "rs1", "A", ["a"], 3⟩, [((none, none) : Call)])
    (List.mem_singleton.mpr rfl)
